import Mathlib

/-!
Verification development for the card-transaction reconciliation engine
(`services/reconciliation_service.py`).  The definitions below are a shallow
embedding of the service's data preparation, channel-revenue computation,
settlement matching, bank-statement classification and metrics aggregation.
Monetary values are modelled as exact rationals, pandas timestamps as an
optional calendar date (with `none` playing the role of `NaT`), and pandas
DataFrames as lists of typed row records.
-/

/-! ## Python string primitives

Models of the Python/pandas string operations the service uses:
`str.strip`, `str.endswith`, `str.startswith`, `str.upper`, slicing.
Only the ASCII whitespace characters are modelled; the narrations and
identifiers handled by the service are ASCII. -/

def isPySpaceChar (c : Char) : Bool :=
  c = ' ' || c = '\t' || c = '\n' || c = '\r' || c = '\x0b' || c = '\x0c'

/-- Model of Python `str.strip()` on a character list. -/
def stripL (l : List Char) : List Char :=
  ((l.dropWhile isPySpaceChar).reverse.dropWhile isPySpaceChar).reverse

/-- Model of Python `str.strip()`. -/
def pyStrip (s : String) : String := String.mk (stripL s.data)

/-- Model of Python `str.endswith(t)`. -/
def pyEndsWith (s t : String) : Bool :=
  decide (s.data.drop (s.data.length - t.data.length) = t.data)

/-- Model of Python `str.startswith(t)`. -/
def pyStartsWith (s t : String) : Bool :=
  decide (s.data.take t.data.length = t.data)

/-- Model of Python slicing `s[:-n]` (drop the last `n` characters). -/
def pyDropRight (s : String) (n : Nat) : String :=
  String.mk (s.data.take (s.data.length - n))

/-- Model of Python `str.upper()` (ASCII case mapping suffices for the
narration prefixes the service tests). -/
def pyUpper (s : String) : String := String.mk (s.data.map Char.toUpper)

/-! ## Merchant-identifier normalization (`_normalize_merchant_id_value`,
`_normalize_merchant_id_series`, `_safe_str_series`) -/

/-- `_normalize_merchant_id_value`: `text = str(value).strip()`;
`return text[:-2] if text.endswith(".0") else text`.  (Input restricted to
strings; `str` is the identity there.) -/
def normalizeMerchantIdValue (s : String) : String :=
  let text := pyStrip s
  if pyEndsWith text ".0" then pyDropRight text 2 else text

/-- A cell of a pandas object column: either a null (`NaN`, rendered `"nan"`
by `str`) or a string. -/
inductive PyVal where
  | vNull : PyVal
  | vStr : String → PyVal
deriving DecidableEq

/-- Python `str(value)` on a cell; pandas nulls are floats `nan`, whose
`str` rendering is `"nan"`. -/
def pyStrOf : PyVal → String
  | .vNull => "nan"
  | .vStr s => s

/-- `pd.notna`. -/
def pyNotna : PyVal → Bool
  | .vNull => false
  | .vStr _ => true

/-- `_safe_str_series`, per element: `series.where(series.notna(), "")`
followed by `.astype(str)`. -/
def safeStrElem (v : PyVal) : String :=
  if pyNotna v then pyStrOf v else ""

/-- `.str.replace(r"\.0$", "", regex=True)`, per element.  The series
normalizer applies this after `.str.strip()`, so the input never ends in a
newline and the end-of-string anchor coincides with `endswith`. -/
def replaceDotZeroEnd (s : String) : String :=
  if pyEndsWith s ".0" then pyDropRight s 2 else s

/-- `_normalize_merchant_id_series`, per element:
`_safe_str_series(series).str.strip().str.replace(r"\.0$", "", regex=True)`. -/
def normalizeMerchantIdSeriesElem (v : PyVal) : String :=
  replaceDotZeroEnd (pyStrip (safeStrElem v))

/-- The scalar normalizer applied to a raw cell (`str(value)` then
normalize), as `_normalize_merchant_id_value` does for arbitrary values. -/
def normalizeMerchantIdValueCell (v : PyVal) : String :=
  normalizeMerchantIdValue (pyStrOf v)

/-- The series normalizer restricted to string cells (the settlement and
transaction merchant-id columns after `astype(str)`). -/
def normalizeMerchantIdSeriesStr (s : String) : String :=
  normalizeMerchantIdSeriesElem (PyVal.vStr s)

/-! ## Dates and the mixed-format date parser (`_parse_mixed_date`) -/

/-- A calendar date.  `pd.NaT` is modelled as `none` at use sites. -/
structure Date where
  year : Nat
  month : Nat
  day : Nat
deriving DecidableEq

/-- Lexicographic order on dates, used for the pandas `Timestamp`
representable range. -/
def dateLeB (a b : Date) : Bool :=
  if a.year < b.year then true
  else if b.year < a.year then false
  else if a.month < b.month then true
  else if b.month < a.month then false
  else a.day ≤ b.day

/-- Days in a month, Gregorian calendar (as `datetime` validates). -/
def daysInMonth (y m : Nat) : Nat :=
  if m = 2 then (if y % 4 = 0 ∧ (y % 100 ≠ 0 ∨ y % 400 = 0) then 29 else 28)
  else if m = 4 ∨ m = 6 ∨ m = 9 ∨ m = 11 then 30 else 31

/-- A midnight timestamp is constructible by `pd.to_datetime` iff the date is
a valid Gregorian date inside the `pd.Timestamp` range (whose midnights span
1677-09-22 through 2262-04-11); anything else coerces to `NaT`. -/
def mkValidDate (y m d : Nat) : Option Date :=
  if 1 ≤ m ∧ m ≤ 12 ∧ 1 ≤ d ∧ d ≤ daysInMonth y m
      ∧ dateLeB ⟨1677, 9, 22⟩ ⟨y, m, d⟩ = true
      ∧ dateLeB ⟨y, m, d⟩ ⟨2262, 4, 11⟩ = true
  then some ⟨y, m, d⟩ else none

/-- Numeric value of a digit string. -/
def natOfDigits (l : List Char) : Nat :=
  l.foldl (fun a c => 10 * a + (c.toNat - 48)) 0

/-- Python `str.isdigit()` (ASCII digits). -/
def isAllDigits (s : String) : Bool := s.data ≠ [] && s.data.all Char.isDigit

/-- `pd.to_datetime(x, format="%Y%m%d", errors="coerce")` on an 8-digit
token. -/
def parseYYYYMMDD (s : String) : Option Date :=
  let l := s.data
  mkValidDate (natOfDigits (l.take 4)) (natOfDigits ((l.drop 4).take 2))
    (natOfDigits ((l.drop 6).take 2))

/-- `pd.to_datetime(x, format="%d%m%Y", errors="coerce")` on an 8-digit
token. -/
def parseDDMMYYYY (s : String) : Option Date :=
  let l := s.data
  mkValidDate (natOfDigits (l.drop 4)) (natOfDigits ((l.drop 2).take 2))
    (natOfDigits (l.take 2))

/-- `pd.to_datetime(x, format="%m%d%Y", errors="coerce")` on an 8-digit
token. -/
def parseMMDDYYYY (s : String) : Option Date :=
  let l := s.data
  mkValidDate (natOfDigits (l.drop 4)) (natOfDigits (l.take 2))
    (natOfDigits ((l.drop 2).take 2))

/-- `startswith(("19", "20"))`. -/
def startsWith1920 (s : String) : Bool :=
  pyStartsWith s "19" || pyStartsWith s "20"

/-- `_parse_mixed_date`: strip; require exactly 8 digits; lead "19"/"20"
means `YYYYMMDD`; otherwise try `DDMMYYYY`, falling back to `MMDDYYYY`. -/
def parseMixedDate (s : String) : Option Date :=
  let x := pyStrip s
  if x.length ≠ 8 ∨ isAllDigits x = false then none
  else if startsWith1920 x then parseYYYYMMDD x
  else
    match parseDDMMYYYY x with
    | some d => some d
    | none => parseMMDDYYYY x

/-- Elementwise pandas comparison `series.dt.date == d`: `NaT` compares
false against everything (including another `NaT`). -/
def dateObsEq (a b : Option Date) : Bool :=
  match a, b with
  | some x, some y => decide (x = y)
  | _, _ => false

/-! ## Rounding (`DataFrame.round(2)` / `Series.round(2)`)

pandas rounding is numpy round-half-to-even.  Monetary values are modelled
as exact rationals. -/

/-- Floor of a rational as an integer. -/
def floorQ (x : ℚ) : ℤ := ⌊x⌋

/-- Round to the nearest integer, ties to even (numpy rounding). -/
def roundHalfEven (x : ℚ) : ℤ :=
  let n := floorQ x
  let f := x - (n : ℚ)
  if f < 1/2 then n
  else if 1/2 < f then n + 1
  else if n % 2 = 0 then n else n + 1

/-- `round(2)`: round to 2 decimal places. -/
def round2 (x : ℚ) : ℚ := (roundHalfEven (x * 100) : ℚ) / 100

/-! ## Row types

Typed models of the six input tables, carrying the columns the
reconciliation logic reads.  Selection of output column subsets (`stan`,
`pan_number`, ...) does not affect any reconciliation decision and those
pass-through columns are omitted. -/

/-- A card-transaction row (`card_df`), after the date/numeric coercions of
`_prepare_data`. -/
structure TxnRow where
  dateCreated : Option Date
  merchantId : String
  hostRespCode : Option Int
  typeOfUser : String
  referenceNumber : Int
  amount : ℚ
  libertyCommission : ℚ
  finalLibertyRev : ℚ
  roProfit : ℚ
  libertyProfit : ℚ
deriving DecidableEq

/-- A settlement-report row (NIBSS-Unity, Interswitch-Unity or
NIBSS-Parallex), after the coercions of `_prepare_data`. -/
structure SettRow where
  localDateTime : Option Date
  merchantId : String
  retrievalReferenceNr : Int
  tranAmountReq : ℚ
  merchantReceivable : ℚ
  merchantDiscount : ℚ
deriving DecidableEq

/-- A bank-statement row (collection accounts).  `Transaction Narration`
is string-typed after `_safe_str_series`. -/
structure BankRow where
  transactionNarration : String
  valueDate : Option Date
  debit : ℚ
  credit : ℚ
  balance : ℚ
deriving DecidableEq

/-- Tail of `drop_duplicates`: keep elements not seen before. -/
def pdDropDupGo {α : Type} [DecidableEq α] (seen : List α) : List α → List α
  | [] => []
  | a :: l =>
    if seen.contains a then pdDropDupGo seen l
    else a :: pdDropDupGo (a :: seen) l

/-- `DataFrame.drop_duplicates()`: keep the first occurrence of each row. -/
def pdDropDuplicates {α : Type} [DecidableEq α] (l : List α) : List α :=
  pdDropDupGo [] l

/-! ## The outer-merge with indicator (`pd.merge(..., how='outer',
indicator=True)`)

A merged row holds the left row (absent for `right_only` rows), the right
row (absent for `left_only` rows), the join key and the `_merge`
indicator. -/

inductive MergeInd where
  | both : MergeInd
  | leftOnly : MergeInd
  | rightOnly : MergeInd
deriving DecidableEq

structure Merged (α β K : Type) where
  left : Option α
  right : Option β
  key : K
  ind : MergeInd

/-- Full outer join of `ts` against `rs` on `ka`/`kb`: each left row is
paired with every matching right row (indicator `both`), or kept alone with
indicator `left_only` when no right row matches; unmatched right rows
follow with indicator `right_only`. -/
def outerMerge {α β K : Type} [DecidableEq K] (ka : α → K) (kb : β → K)
    (ts : List α) (rs : List β) : List (Merged α β K) :=
  (ts.flatMap fun t =>
    let ms := rs.filter (fun r => decide (kb r = ka t))
    if ms.isEmpty then [⟨some t, none, ka t, MergeInd.leftOnly⟩]
    else ms.map fun r => ⟨some t, some r, ka t, MergeInd.both⟩)
  ++ (rs.filter fun r => !(ts.any fun t => decide (ka t = kb r))).map
    fun r => ⟨none, some r, kb r, MergeInd.rightOnly⟩

/-- Inner join (`pd.merge(..., how='inner')`). -/
def innerJoin {α β K : Type} [DecidableEq K] (ka : α → K) (kb : β → K)
    (ts : List α) (rs : List β) : List (α × β) :=
  ts.flatMap fun t => (rs.filter (fun r => decide (kb r = ka t))).map fun r => (t, r)

/-- `recon_df[recon_df['_merge'] == 'left_only']`, keeping the left-side
columns. -/
def leftOnlyRows {α β K : Type} (l : List (Merged α β K)) : List α :=
  (l.filter fun m => decide (m.ind = MergeInd.leftOnly)).filterMap (·.left)

/-- `recon_df[recon_df['_merge'] == 'right_only']`, keeping the right-side
columns. -/
def rightOnlyRows {α β K : Type} (l : List (Merged α β K)) : List β :=
  (l.filter fun m => decide (m.ind = MergeInd.rightOnly)).filterMap (·.right)

/-- The rows with indicator `both`. -/
def bothRows {α β K : Type} (l : List (Merged α β K)) : List (Merged α β K) :=
  l.filter fun m => decide (m.ind = MergeInd.both)

/-! ## Key sets of the merge partitions (claim C1) -/

/-- The set of join-key values carried by the merged rows with a given
indicator value. -/
def indKeySet {α β K : Type} [DecidableEq K] (i : MergeInd)
    (l : List (Merged α β K)) : Finset K :=
  ((l.filter fun m => decide (m.ind = i)).map (·.key)).toFinset

section MergeLemmas

variable {α β K : Type} [DecidableEq K] (ka : α → K) (kb : β → K)

theorem mem_outerMerge (m : Merged α β K) (ts : List α) (rs : List β) :
    m ∈ outerMerge ka kb ts rs ↔
      (∃ t ∈ ts, ∃ r ∈ rs, kb r = ka t ∧ m = ⟨some t, some r, ka t, MergeInd.both⟩)
      ∨ (∃ t ∈ ts, (∀ r ∈ rs, kb r ≠ ka t) ∧ m = ⟨some t, none, ka t, MergeInd.leftOnly⟩)
      ∨ (∃ r ∈ rs, (∀ t ∈ ts, ka t ≠ kb r) ∧ m = ⟨none, some r, kb r, MergeInd.rightOnly⟩) := by
  simp only [outerMerge, List.mem_append, List.mem_flatMap, List.mem_map, List.mem_filter,
    List.any_eq_true, decide_eq_true_eq, Bool.not_eq_true', decide_eq_false_iff_not]
  constructor
  · rintro (⟨t, ht, hm⟩ | ⟨r, ⟨hr, hnone⟩, rfl⟩)
    · by_cases hms : (rs.filter (fun r => decide (kb r = ka t))).isEmpty
      · rw [if_pos hms] at hm
        simp only [List.mem_singleton] at hm
        refine Or.inr (Or.inl ⟨t, ht, ?_, hm⟩)
        rw [List.isEmpty_iff] at hms
        intro r hr
        by_contra heq
        have : r ∈ rs.filter (fun r => decide (kb r = ka t)) := by
          simp [List.mem_filter, hr, heq]
        rw [hms] at this
        exact absurd this (List.not_mem_nil r)
      · rw [if_neg hms] at hm
        simp only [List.mem_map, List.mem_filter, decide_eq_true_eq] at hm
        obtain ⟨r, ⟨hr, hkey⟩, rfl⟩ := hm
        exact Or.inl ⟨t, ht, r, hr, hkey, rfl⟩
    · refine Or.inr (Or.inr ⟨r, hr, ?_, rfl⟩)
      rw [List.any_eq_false] at hnone
      intro t ht
      have := hnone t ht
      simpa using this
  · rintro (⟨t, ht, r, hr, hkey, rfl⟩ | ⟨t, ht, hnone, rfl⟩ | ⟨r, hr, hnone, rfl⟩)
    · refine Or.inl ⟨t, ht, ?_⟩
      have hms : ¬(rs.filter (fun r => decide (kb r = ka t))).isEmpty := by
        rw [List.isEmpty_iff]
        intro hnil
        have : r ∈ rs.filter (fun r => decide (kb r = ka t)) := by
          simp [List.mem_filter, hr, hkey]
        rw [hnil] at this
        exact absurd this (List.not_mem_nil r)
      rw [if_neg hms]
      simp only [List.mem_map, List.mem_filter, decide_eq_true_eq]
      exact ⟨r, ⟨hr, hkey⟩, rfl⟩
    · refine Or.inl ⟨t, ht, ?_⟩
      have hms : (rs.filter (fun r => decide (kb r = ka t))).isEmpty := by
        rw [List.isEmpty_iff, List.filter_eq_nil_iff]
        intro r hr
        simp only [decide_eq_true_eq]
        exact hnone r hr
      rw [if_pos hms]
      exact List.mem_singleton.mpr rfl
    · refine Or.inr ⟨r, ⟨hr, ?_⟩, rfl⟩
      rw [List.any_eq_false]
      intro t ht
      simpa using hnone t ht

theorem mem_indKeySet_both (ts : List α) (rs : List β) (k : K) :
    k ∈ indKeySet MergeInd.both (outerMerge ka kb ts rs) ↔
      (∃ t ∈ ts, ka t = k) ∧ (∃ r ∈ rs, kb r = k) := by
  simp only [indKeySet, List.mem_toFinset, List.mem_map, List.mem_filter, decide_eq_true_eq]
  constructor
  · rintro ⟨m, ⟨hm, hind⟩, hkey⟩
    rw [mem_outerMerge] at hm
    rcases hm with ⟨t, ht, r, hr, hkba, rfl⟩ | ⟨t, ht, _, rfl⟩ | ⟨r, hr, _, rfl⟩
    · subst hkey
      exact ⟨⟨t, ht, rfl⟩, ⟨r, hr, hkba⟩⟩
    · exact absurd hind (by intro h; cases h)
    · exact absurd hind (by intro h; cases h)
  · rintro ⟨⟨t, ht, hta⟩, ⟨r, hr, hrb⟩⟩
    refine ⟨⟨some t, some r, ka t, MergeInd.both⟩, ⟨?_, rfl⟩, hta⟩
    rw [mem_outerMerge]
    exact Or.inl ⟨t, ht, r, hr, by rw [hrb, hta], rfl⟩

theorem mem_indKeySet_leftOnly (ts : List α) (rs : List β) (k : K) :
    k ∈ indKeySet MergeInd.leftOnly (outerMerge ka kb ts rs) ↔
      (∃ t ∈ ts, ka t = k) ∧ ¬(∃ r ∈ rs, kb r = k) := by
  simp only [indKeySet, List.mem_toFinset, List.mem_map, List.mem_filter, decide_eq_true_eq]
  constructor
  · rintro ⟨m, ⟨hm, hind⟩, hkey⟩
    rw [mem_outerMerge] at hm
    rcases hm with ⟨t, ht, r, hr, hkba, rfl⟩ | ⟨t, ht, hnone, rfl⟩ | ⟨r, hr, _, rfl⟩
    · exact absurd hind (by intro h; cases h)
    · subst hkey
      refine ⟨⟨t, ht, rfl⟩, ?_⟩
      rintro ⟨r, hr, hrb⟩
      exact hnone r hr hrb
    · exact absurd hind (by intro h; cases h)
  · rintro ⟨⟨t, ht, hta⟩, hnone⟩
    refine ⟨⟨some t, none, ka t, MergeInd.leftOnly⟩, ⟨?_, rfl⟩, hta⟩
    rw [mem_outerMerge]
    refine Or.inr (Or.inl ⟨t, ht, ?_, rfl⟩)
    intro r hr heq
    exact hnone ⟨r, hr, by rw [heq, hta]⟩

theorem mem_indKeySet_rightOnly (ts : List α) (rs : List β) (k : K) :
    k ∈ indKeySet MergeInd.rightOnly (outerMerge ka kb ts rs) ↔
      (∃ r ∈ rs, kb r = k) ∧ ¬(∃ t ∈ ts, ka t = k) := by
  simp only [indKeySet, List.mem_toFinset, List.mem_map, List.mem_filter, decide_eq_true_eq]
  constructor
  · rintro ⟨m, ⟨hm, hind⟩, hkey⟩
    rw [mem_outerMerge] at hm
    rcases hm with ⟨t, ht, r, hr, hkba, rfl⟩ | ⟨t, ht, hnone, rfl⟩ | ⟨r, hr, hnone, rfl⟩
    · exact absurd hind (by intro h; cases h)
    · exact absurd hind (by intro h; cases h)
    · subst hkey
      refine ⟨⟨r, hr, rfl⟩, ?_⟩
      rintro ⟨t, ht, hta⟩
      exact hnone t ht hta
  · rintro ⟨⟨r, hr, hrb⟩, hnone⟩
    refine ⟨⟨none, some r, kb r, MergeInd.rightOnly⟩, ⟨?_, rfl⟩, hrb⟩
    rw [mem_outerMerge]
    refine Or.inr (Or.inr ⟨r, hr, ?_, rfl⟩)
    intro t ht heq
    exact hnone ⟨t, ht, by rw [heq, hrb]⟩

end MergeLemmas

/-! ## The settlement matcher join (`_process_settlements`)

Each channel joins its transaction subset against its filtered settlement
subset with
`merge(..., how='outer', left_on='reference_number',
right_on='Retrieval_Reference_Nr', indicator=True)` and then partitions the
result by the `_merge` indicator. -/

/-- The outer join of a channel transaction subset against its filtered
settlement subset, as built by `_process_settlements`. -/
def settReconDf (ts : List TxnRow) (ss : List SettRow) :
    List (Merged TxnRow SettRow Int) :=
  outerMerge TxnRow.referenceNumber SettRow.retrievalReferenceNr ts ss

/-- `claim_only` rows (`_merge == 'left_only'`, the unsettled claims),
carrying the transaction-side columns. -/
def settUnsettledClaim (ts : List TxnRow) (ss : List SettRow) : List TxnRow :=
  leftOnlyRows (settReconDf ts ss)

/-- `report_only` rows (`_merge == 'right_only'`, the chargebacks),
carrying the settlement-side columns. -/
def settChargeBack (ts : List TxnRow) (ss : List SettRow) : List SettRow :=
  rightOnlyRows (settReconDf ts ss)

/-- Key set of the `matched` partition. -/
def matchedKeySet (ts : List TxnRow) (ss : List SettRow) : Finset Int :=
  indKeySet MergeInd.both (settReconDf ts ss)

/-- Key set of the `claim_only` partition. -/
def claimOnlyKeySet (ts : List TxnRow) (ss : List SettRow) : Finset Int :=
  indKeySet MergeInd.leftOnly (settReconDf ts ss)

/-- Key set of the `report_only` partition. -/
def reportOnlyKeySet (ts : List TxnRow) (ss : List SettRow) : Finset Int :=
  indKeySet MergeInd.rightOnly (settReconDf ts ss)

/-- Key set of the transaction-side input table. -/
def txnKeySet (ts : List TxnRow) : Finset Int :=
  (ts.map TxnRow.referenceNumber).toFinset

/-- Key set of the settlement-side input table. -/
def settKeySet (ss : List SettRow) : Finset Int :=
  (ss.map SettRow.retrievalReferenceNr).toFinset

/-- C1: the three partitions produced by the settlement matcher's outer
join are pairwise disjoint, and the union of their key sets equals the
union of the key sets of the two input tables. -/
theorem c1_join_partition (ts : List TxnRow) (ss : List SettRow) :
    matchedKeySet ts ss ∩ claimOnlyKeySet ts ss = ∅
    ∧ matchedKeySet ts ss ∩ reportOnlyKeySet ts ss = ∅
    ∧ claimOnlyKeySet ts ss ∩ reportOnlyKeySet ts ss = ∅
    ∧ matchedKeySet ts ss ∪ claimOnlyKeySet ts ss ∪ reportOnlyKeySet ts ss
        = txnKeySet ts ∪ settKeySet ss := by
  have hb := mem_indKeySet_both TxnRow.referenceNumber SettRow.retrievalReferenceNr ts ss
  have hl := mem_indKeySet_leftOnly TxnRow.referenceNumber SettRow.retrievalReferenceNr ts ss
  have hr := mem_indKeySet_rightOnly TxnRow.referenceNumber SettRow.retrievalReferenceNr ts ss
  have htk : ∀ k, k ∈ txnKeySet ts ↔ ∃ t ∈ ts, t.referenceNumber = k := by
    intro k
    simp [txnKeySet]
  have hsk : ∀ k, k ∈ settKeySet ss ↔ ∃ r ∈ ss, r.retrievalReferenceNr = k := by
    intro k
    simp [settKeySet]
  refine ⟨?_, ?_, ?_, ?_⟩
  · ext k
    simp only [Finset.mem_inter, Finset.not_mem_empty, iff_false]
    rintro ⟨h1, h2⟩
    rw [matchedKeySet, settReconDf, hb] at h1
    rw [claimOnlyKeySet, settReconDf, hl] at h2
    exact h2.2 h1.2
  · ext k
    simp only [Finset.mem_inter, Finset.not_mem_empty, iff_false]
    rintro ⟨h1, h2⟩
    rw [matchedKeySet, settReconDf, hb] at h1
    rw [reportOnlyKeySet, settReconDf, hr] at h2
    exact h2.2 h1.1
  · ext k
    simp only [Finset.mem_inter, Finset.not_mem_empty, iff_false]
    rintro ⟨h1, h2⟩
    rw [claimOnlyKeySet, settReconDf, hl] at h1
    rw [reportOnlyKeySet, settReconDf, hr] at h2
    exact h2.2 h1.1
  · ext k
    simp only [Finset.mem_union]
    rw [matchedKeySet, claimOnlyKeySet, reportOnlyKeySet, settReconDf, hb, hl, hr,
      htk, hsk]
    by_cases hT : ∃ t ∈ ts, t.referenceNumber = k
    · by_cases hS : ∃ r ∈ ss, r.retrievalReferenceNr = k
      · simp [hT, hS]
      · simp [hT, hS]
    · by_cases hS : ∃ r ∈ ss, r.retrievalReferenceNr = k
      · simp [hT, hS]
      · simp [hT, hS]

/-! ## Channel revenue calculator (`_process_card_transactions`) -/

/-- A channel transaction row after the added `fee` / `cost_of_acquisition`
/ `agent_commission` / `Gross` columns. -/
structure ChanRow where
  txn : TxnRow
  fee : ℚ
  costOfAcquisition : ℚ
  agentCommission : ℚ
  gross : ℚ

/-- Interswitch-Unity channel rows: `fee = liberty_commission`,
`cost_of_acquisition = 17`, `agent_commission = 3`,
`Gross = (fee - cost - commission).round(2)`. -/
def interswitchUnityRows (ts : List TxnRow) : List ChanRow :=
  ts.map fun t =>
    ⟨t, t.libertyCommission, 17, 3, round2 (t.libertyCommission - 17 - 3)⟩

/-- NIBSS-Unity channel rows: `fee = liberty_commission`,
`cost_of_acquisition = amount * 0.0022`, `agent_commission = ro_profit`,
`Gross = (fee - cost - commission).round(2)`. -/
def nibssUnityRows (ts : List TxnRow) : List ChanRow :=
  ts.map fun t =>
    ⟨t, t.libertyCommission, t.amount * 0.0022, t.roProfit,
      round2 (t.libertyCommission - t.amount * 0.0022 - t.roProfit)⟩

/-- NIBSS-Parallex channel rows: same formula shape as NIBSS-Unity. -/
def nibssParallexRows (ts : List TxnRow) : List ChanRow :=
  ts.map fun t =>
    ⟨t, t.libertyCommission, t.amount * 0.0022, t.roProfit,
      round2 (t.libertyCommission - t.amount * 0.0022 - t.roProfit)⟩

/-- The single aggregate row
`agg({'amount': 'sum', 'id': 'count', 'fee': 'sum', 'cost_of_acquisition':
'sum', 'agent_commission': 'sum', 'Gross': 'sum'}).to_frame().T.round(2)`. -/
structure ChannelAgg where
  amount : ℚ
  idCount : Nat
  fee : ℚ
  costOfAcquisition : ℚ
  agentCommission : ℚ
  gross : ℚ
deriving DecidableEq

/-- Aggregate a channel's rows; every monetary sum is rounded to 2 decimals
by the trailing `.round(2)` on the one-row frame. -/
def aggChannel (rows : List ChanRow) : ChannelAgg :=
  { amount := round2 (rows.map (fun r => r.txn.amount)).sum
    idCount := rows.length
    fee := round2 (rows.map (·.fee)).sum
    costOfAcquisition := round2 (rows.map (·.costOfAcquisition)).sum
    agentCommission := round2 (rows.map (·.agentCommission)).sum
    gross := round2 (rows.map (·.gross)).sum }

/-- The PAYBOX aggregate (`type_of_user == 'MERCHANT'` rows). -/
structure PayboxAgg where
  amount : ℚ
  idCount : Nat
  libertyCommission : ℚ
  finalLibertyRev : ℚ
  roProfit : ℚ
  libertyProfit : ℚ
deriving DecidableEq

def aggPaybox (rows : List TxnRow) : PayboxAgg :=
  { amount := round2 (rows.map (·.amount)).sum
    idCount := rows.length
    libertyCommission := round2 (rows.map (·.libertyCommission)).sum
    finalLibertyRev := round2 (rows.map (·.finalLibertyRev)).sum
    roProfit := round2 (rows.map (·.roProfit)).sum
    libertyProfit := round2 (rows.map (·.libertyProfit)).sum }

/-! ## ISW-collection narration extraction (`_process_bank_statements`)

The narration repair regex
`(\d{9,12})\s+(\d{2}\s+\d{2}\s+\d{4}-)` → `\1 - \2` inserts a ` - `
separator between a 9-to-12-digit run and a following
`dd mm yyyy-`-shaped date group; the narration is then split on
`\s*-\s*` into `[tid, stans, pan, rrn, t_date, narration]`. -/

/-- Match `\d{2}\s+\d{2}\s+\d{4}-` (the second capture group) at the head
of `l`; on success return the matched text and the remainder. -/
def matchFixTail (l : List Char) : Option (List Char × List Char) :=
  match l with
  | a :: b :: rest =>
    if a.isDigit ∧ b.isDigit then
      let ws1 := rest.takeWhile isPySpaceChar
      if ws1.isEmpty then none
      else
        match rest.drop ws1.length with
        | c :: d :: rest2 =>
          if c.isDigit ∧ d.isDigit then
            let ws2 := rest2.takeWhile isPySpaceChar
            if ws2.isEmpty then none
            else
              match rest2.drop ws2.length with
              | e :: f :: g :: h :: '-' :: rest3 =>
                if e.isDigit ∧ f.isDigit ∧ g.isDigit ∧ h.isDigit then
                  some ([a, b] ++ ws1 ++ [c, d] ++ ws2 ++ [e, f, g, h, '-'], rest3)
                else none
              | _ => none
          else none
        | _ => none
    else none
  | _ => none

/-- Try to match the whole repair pattern at the head of `l` with a given
(greedy, backtracking) length for the `\d{9,12}` group; on success return
the replacement text `\1 - \2` and the remainder. -/
def matchFixLen (l : List Char) (len : Nat) : Option (List Char × List Char) :=
  let g1 := l.take len
  if g1.length = len ∧ g1.all Char.isDigit then
    let rest := l.drop len
    let ws := rest.takeWhile isPySpaceChar
    if ws.isEmpty then none
    else
      match matchFixTail (rest.drop ws.length) with
      | some (g2, rem) => some (g1 ++ [' ', '-', ' '] ++ g2, rem)
      | none => none
  else none

/-- Greedy alternative lengths 12, 11, 10, 9 for the digit run. -/
def matchFixAt (l : List Char) : Option (List Char × List Char) :=
  match matchFixLen l 12 with
  | some r => some r
  | none =>
    match matchFixLen l 11 with
    | some r => some r
    | none =>
      match matchFixLen l 10 with
      | some r => some r
      | none => matchFixLen l 9

/-- Scan for non-overlapping matches left to right, as `re.sub` does.  The
fuel argument (instantiated with the string length, an upper bound on the
number of scan steps) makes the recursion structural; each step consumes at
least one character. -/
def fixScan : Nat → List Char → List Char
  | 0, l => l
  | _ + 1, [] => []
  | fuel + 1, c :: rest =>
    match matchFixAt (c :: rest) with
    | some (rep, rem) => rep ++ fixScan fuel rem
    | none => c :: fixScan fuel rest

/-- `str.replace(r'(\d{9,12})\s+(\d{2}\s+\d{2}\s+\d{4}-)', r'\1 - \2',
regex=True)`. -/
def fixNarration (s : String) : String :=
  String.mk (fixScan s.data.length s.data)

/-- Split a character list on a separator character. -/
def splitOnCharL (sep : Char) : List Char → List (List Char)
  | [] => [[]]
  | c :: rest =>
    if c = sep then [] :: splitOnCharL sep rest
    else
      match splitOnCharL sep rest with
      | h :: t => (c :: h) :: t
      | [] => [[c]]

/-- Python `str.split(sep)` for a single-character separator. -/
def pySplitChar (sep : Char) (s : String) : List String :=
  (splitOnCharL sep s.data).map String.mk

/-- `str.split(r'\s*-\s*')`: split on the dashes, whitespace adjacent to a
dash being absorbed by the separator (equivalently: split on `-`, then
strip each piece). -/
def splitIswNarration (s : String) : List String :=
  (pySplitChar '-' (fixNarration s)).map pyStrip

/-! ## `astype('int')` on the extracted `rrn` column

numpy converts an object column by calling `int()` on each element; a
non-integer element raises for the whole operation. -/

/-- Digits of a Python integer literal after the first digit: underscores
allowed singly between digits. -/
def parseDigitsUGo : Nat → List Char → Option Nat
  | acc, [] => some acc
  | acc, '_' :: rest =>
    match rest with
    | c :: rest2 =>
      if c.isDigit then parseDigitsUGo (10 * acc + (c.toNat - 48)) rest2 else none
    | [] => none
  | acc, c :: rest =>
    if c.isDigit then parseDigitsUGo (10 * acc + (c.toNat - 48)) rest else none

/-- A non-empty digit run with single interior underscores. -/
def parseDigitsU (l : List Char) : Option Nat :=
  match l with
  | c :: rest => if c.isDigit then parseDigitsUGo (c.toNat - 48) rest else none
  | [] => none

/-- Python `int(s)`: optional surrounding whitespace, optional sign, then
a digit run. -/
def pyParseInt (s : String) : Option Int :=
  match stripL s.data with
  | '-' :: rest => (parseDigitsU rest).map fun n => -(n : Int)
  | '+' :: rest => (parseDigitsU rest).map fun n => (n : Int)
  | l => (parseDigitsU l).map fun n => (n : Int)

/-- `isw_collection['rrn'].astype('int')`: convert every element, raising
on the first row whose field is missing (`None` from the expanding split)
or fails to parse as an integer. -/
def astypeIntColumn : List (Option String) → Except String (List Int)
  | [] => .ok []
  | none :: _ => .error "int() argument must be a string or a number, not NoneType"
  | some s :: rest =>
    match pyParseInt s with
    | none => .error ("invalid literal for int() with base 10: " ++ s)
    | some n =>
      match astypeIntColumn rest with
      | .ok vs => .ok (n :: vs)
      | .error e => .error e

/-- Whether an extracted `rrn` field converts cleanly. -/
def rrnParses : Option String → Bool
  | none => false
  | some s => (pyParseInt s).isSome

/-- `narration_series.str.upper().str.startswith('2LBP')`. -/
def startsWith2LBPUpper (s : String) : Bool :=
  pyStartsWith (pyUpper s) "2LBP"

/-- The ISW-collection rows of a bank statement. -/
def iswCollectionFilter (rows : List BankRow) : List BankRow :=
  rows.filter fun b => startsWith2LBPUpper b.transactionNarration

/-- The `rrn` field (4th fixed field of the repaired, split narration);
`None` when the split yields fewer than four separators. -/
def rrnField (s : String) : Option String :=
  (splitIswNarration s).get? 3

/-- The `rrn` column of the ISW-collection subset. -/
def rrnColumn (rows : List BankRow) : List (Option String) :=
  (iswCollectionFilter rows).map fun b => rrnField b.transactionNarration

/-- The column count of the expanded split frame
`fixed_narration.str.split(r'\s*-\s*', expand=True)`: the maximum number
of split fields over the ISW-collection rows (0 when there are none). -/
def iswSplitWidth (rows : List BankRow) : Nat :=
  ((iswCollectionFilter rows).map
    (fun b => (splitIswNarration b.transactionNarration).length)).foldr max 0

/-- The whole extraction of lines 376-379: the six-name column assignment
`isw_collection[['tid', 'stans', 'pan', 'rrn', 't_date', 'narration']] =
fixed_narration.str.split(r'\s*-\s*', expand=True)` raises
`ValueError("Columns must be same length as key")` unless the expanded
split frame is exactly six columns wide (pandas checks
`len(value.columns) != len(key)`; an ISW subset with no rows expands to a
zero-column frame and raises too); rows with fewer fields are padded with
nulls.  Only then is the `rrn` column converted with `astype('int')`. -/
def iswExtractRrns (rows : List BankRow) : Except String (List Int) :=
  if iswSplitWidth rows ≠ 6 then .error "Columns must be same length as key"
  else astypeIntColumn (rrnColumn rows)

/-- The `t_date` field (5th fixed field), parsed with
`pd.to_datetime(..., format='%d %m %Y', errors='coerce')`. -/
def parseDayMonthYear (s : String) : Option Date :=
  match (pySplitChar ' ' s).filter (fun p => decide (p ≠ "")) with
  | [d, m, y] =>
    if isAllDigits d ∧ isAllDigits m ∧ isAllDigits y
        ∧ d.length ≤ 2 ∧ m.length ≤ 2 ∧ y.length ≤ 4 then
      mkValidDate (natOfDigits y.data) (natOfDigits m.data) (natOfDigits d.data)
    else none
  | _ => none

def tDateField (s : String) : Option Date :=
  match (splitIswNarration s).get? 4 with
  | some f => parseDayMonthYear f
  | none => none

/-! ## Narration classifier (`_process_nibss_unity_bank_statement`,
`_process_additional_bank_items`) -/

/-- Date token embedded in a NEFT narration: split on `#`, take the
third-from-last segment (null when there are fewer than three segments,
made safe as an empty string), strip, erase whitespace, erase non-digits,
keep the last 8 characters. -/
def extractHashDate (s : String) : String :=
  let parts := pySplitChar '#' s
  let seg := if 3 ≤ parts.length then parts.getD (parts.length - 3) "" else ""
  let l := ((stripL seg.data).filter (fun c => !isPySpaceChar c)).filter Char.isDigit
  String.mk (l.drop (l.length - 8))

/-- `new_date` column of the Unity collection account: the extracted token
run through `_parse_mixed_date`. -/
def newDateOf (b : BankRow) : Option Date :=
  parseMixedDate (extractHashDate b.transactionNarration)

/-- NEFT rows: narration (stripped) ends with `"NEFT"`. -/
def nerfFilter (rows : List BankRow) : List BankRow :=
  rows.filter fun b => pyEndsWith (pyStrip b.transactionNarration) "NEFT"

/-- `groupby(['new_date'])['Credit'].sum()`: one row per distinct non-null
extracted date (pandas drops null group keys), with the credits summed. -/
def nerfGrouped (rows : List BankRow) : List (Date × ℚ) :=
  (pdDropDuplicates ((nerfFilter rows).filterMap newDateOf)).map fun d =>
    (d, ((nerfFilter rows).filter (fun b => decide (newDateOf b = some d))).map (·.credit) |>.sum)

/-- `nerf_nibss_b_credit`: the per-date credit sums restricted to the
reference date. -/
def nerfNibssBCredit (rows : List BankRow) (ud : Option Date) : List (Date × ℚ) :=
  (nerfGrouped rows).filter fun dc => dateObsEq (some dc.1) ud

/-- BEING rows: narration (stripped) starts with `"BEING"`. -/
def beingFilter (rows : List BankRow) : List BankRow :=
  rows.filter fun b => pyStartsWith (pyStrip b.transactionNarration) "BEING"

/-- `being_nibss_summary`: BEING rows whose value date equals the
reference date. -/
def beingNibssSummary (rows : List BankRow) (ud : Option Date) : List BankRow :=
  (beingFilter rows).filter fun b => dateObsEq b.valueDate ud

/-- Reversal rows: narration starts with `"RVSL"`.  (The `raw_date` /
`new_date` columns computed for these rows do not alter row membership and
are not carried in the model.) -/
def cbFilter (rows : List BankRow) : List BankRow :=
  rows.filter fun b => pyStartsWith b.transactionNarration "RVSL"

/-- `cb`: reversal rows whose value date equals the reference date. -/
def cbRows (rows : List BankRow) (ud : Option Date) : List BankRow :=
  (cbFilter rows).filter fun b => dateObsEq b.valueDate ud

/-- The narration texts excluded from the terminal-owner-fee bucket:
ISW-collection, BEING and (date-filtered) reversal narrations, first
occurrences kept (`pd.concat(...).drop_duplicates()`). -/
def excludeNarrations (rows : List BankRow) (ud : Option Date) : List String :=
  pdDropDuplicates
    ((iswCollectionFilter rows).map (·.transactionNarration)
      ++ (beingFilter rows).map (·.transactionNarration)
      ++ (cbRows rows ud).map (·.transactionNarration))

/-- `tof_df`: rows whose narration ends with `"TRANSACTION"`, whose
narration text is not among the excluded narrations, and whose value date
equals the reference date. -/
def tofRows (rows : List BankRow) (ud : Option Date) : List BankRow :=
  (((rows.filter fun b => pyEndsWith b.transactionNarration "TRANSACTION").filter
    fun b => !((excludeNarrations rows ud).contains b.transactionNarration)).filter
    fun b => dateObsEq b.valueDate ud)

/-- `ds`: the daily-sweep subset of `tof_df` (narration starts with
`"DAILY"`). -/
def dsRows (rows : List BankRow) (ud : Option Date) : List BankRow :=
  (tofRows rows ud).filter fun b => pyStartsWith b.transactionNarration "DAILY"

/-! ## Settlement aggregates and the full pipeline -/

/-- Single-row settlement aggregate
`agg({'Tran_Amount_Req': 'sum', 'Merchant_ID': 'count',
'Merchant_Receivable': 'sum', 'Merchant_Discount': 'sum'})
.to_frame().T.round(2)`. -/
structure SettAgg where
  tranAmountReq : ℚ
  merchantIdCount : Nat
  merchantReceivable : ℚ
  merchantDiscount : ℚ
deriving DecidableEq

def aggSett (rows : List SettRow) : SettAgg :=
  { tranAmountReq := round2 (rows.map (·.tranAmountReq)).sum
    merchantIdCount := rows.length
    merchantReceivable := round2 (rows.map (·.merchantReceivable)).sum
    merchantDiscount := round2 (rows.map (·.merchantDiscount)).sum }

/-- `unity_isw_agg`: `agg({'Tran_Amount_Req': 'sum', 'Merchant_ID':
'count'}).to_frame().T` (note: no rounding here). -/
structure UnityIswAgg where
  tranAmountReq : ℚ
  merchantIdCount : Nat
deriving DecidableEq

def aggUnityIsw (rows : List SettRow) : UnityIswAgg :=
  { tranAmountReq := (rows.map (·.tranAmountReq)).sum
    merchantIdCount := rows.length }

/-- The six loaded input tables plus the configured merchant identifiers
(`settings`). -/
structure Inputs where
  cardDf : List TxnRow
  nibssUnitySettlementDf : List SettRow
  unitySettlement : List SettRow
  parallexNibss : List SettRow
  collectionAccountUnity : List BankRow
  collectionAccountParallex : List BankRow
  merchantIdInterswitchUnity : String
  merchantIdNibssUnity : String
  merchantIdNibssParallex : String

/-- Normalize a transaction row (`_prepare_data`): the merchant-id column
through the series normalizer; dates and numerics are already typed in the
model. -/
def normalizeTxnRow (t : TxnRow) : TxnRow :=
  { t with merchantId := normalizeMerchantIdSeriesStr t.merchantId }

/-- Normalize a settlement row (`_prepare_data`). -/
def normalizeSettRow (r : SettRow) : SettRow :=
  { r with merchantId := normalizeMerchantIdSeriesStr r.merchantId }

/-- The state after `_prepare_data`: normalized identifiers, transaction
table filtered to the run date, bank-statement narrations already
string-safe. -/
structure Prepared where
  cardDf : List TxnRow
  nibssUnitySett : List SettRow
  unitySett : List SettRow
  parallexSett : List SettRow
  collectionUnity : List BankRow
  collectionParallex : List BankRow
  idIsw : String
  idNibssUnity : String
  idNibssParallex : String

def prepareData (inp : Inputs) (rd : Date) : Prepared :=
  { cardDf := (inp.cardDf.map normalizeTxnRow).filter
      fun t => decide (t.dateCreated = some rd)
    nibssUnitySett := inp.nibssUnitySettlementDf.map normalizeSettRow
    unitySett := inp.unitySettlement.map normalizeSettRow
    parallexSett := inp.parallexNibss.map normalizeSettRow
    collectionUnity := inp.collectionAccountUnity
    collectionParallex := inp.collectionAccountParallex
    idIsw := normalizeMerchantIdValue inp.merchantIdInterswitchUnity
    idNibssUnity := normalizeMerchantIdValue inp.merchantIdNibssUnity
    idNibssParallex := normalizeMerchantIdValue inp.merchantIdNibssParallex }

/-- Successful transactions (`host_resp_code == 0`). -/
def cashoutTrans (p : Prepared) : List TxnRow :=
  p.cardDf.filter fun t => decide (t.hostRespCode = some 0)

/-- The Interswitch-Unity channel transaction subset. -/
def iswUnityTxns (p : Prepared) : List TxnRow :=
  (cashoutTrans p).filter fun t => decide (t.merchantId = p.idIsw)

/-- The NIBSS-Unity channel transaction subset. -/
def nibssUnityTxns (p : Prepared) : List TxnRow :=
  (cashoutTrans p).filter fun t => decide (t.merchantId = p.idNibssUnity)

/-- The NIBSS-Parallex channel transaction subset. -/
def nibssParallexTxns (p : Prepared) : List TxnRow :=
  (cashoutTrans p).filter fun t => decide (t.merchantId = p.idNibssParallex)

/-- The PAYBOX subset (`type_of_user == 'MERCHANT'`). -/
def payboxTxns (p : Prepared) : List TxnRow :=
  (cashoutTrans p).filter fun t => decide (t.typeOfUser = "MERCHANT")

/-! Settlement matcher per channel (`_process_settlements`). -/

/-- The filtered NIBSS-Unity settlement subset: run-date rows, configured
merchant, exact duplicates dropped. -/
def nibssUnitySettFiltered (p : Prepared) (rd : Date) : List SettRow :=
  pdDropDuplicates
    ((p.nibssUnitySett.filter fun r => dateObsEq r.localDateTime (some rd)).filter
      fun r => decide (r.merchantId = p.idNibssUnity))

/-- The filtered Interswitch-Unity settlement subset (`unity_isw`):
run-date rows, exact duplicates dropped (no merchant filter). -/
def unityIswFiltered (p : Prepared) (rd : Date) : List SettRow :=
  pdDropDuplicates (p.unitySett.filter fun r => dateObsEq r.localDateTime (some rd))

/-- The filtered Parallex settlement subset. -/
def parallexSettFiltered (p : Prepared) (rd : Date) : List SettRow :=
  pdDropDuplicates
    ((p.parallexSett.filter fun r => dateObsEq r.localDateTime (some rd)).filter
      fun r => decide (r.merchantId = p.idNibssParallex))

/-- `isw_recon`: inner join of the Interswitch channel transactions against
`unity_isw` on reference number. -/
def iswRecon (p : Prepared) (rd : Date) : List (TxnRow × SettRow) :=
  innerJoin TxnRow.referenceNumber SettRow.retrievalReferenceNr
    (iswUnityTxns p) (unityIswFiltered p rd)

/-! ## Bank-statement stage (`_process_bank_statements`) -/

/-- The result tables produced by the bank-statement stage. -/
structure BankResults where
  iswBUnsettledClaim : List TxnRow
  iswBChargeBack : List (BankRow × Int)
  nerfNibssBCredit : List (Date × ℚ)
  beingNibssSummary : List BankRow
  cb : List BankRow
  tofDf : List BankRow
  ds : List BankRow
deriving DecidableEq

/-- `_process_bank_statements`: extract the ISW-collection rows and their
`rrn` integers (a six-field split-assignment failure or an `rrn`
conversion failure raises and aborts the run), outer-join
the settlement-matched set against them, and — unless the filtered
Interswitch settlement report is empty or entirely date-less, in which
case every remaining bank table is an empty frame — classify the rest of
the statement against the report's reference date. -/
def processBankStatements (collectionUnity : List BankRow)
    (iswReconRows : List (TxnRow × SettRow)) (unityIsw : List SettRow) :
    Except String BankResults :=
  match iswExtractRrns collectionUnity with
  | .error e => .error e
  | .ok rrns =>
    let iswCollection := (iswCollectionFilter collectionUnity).zip rrns
    let notIswBRecon := outerMerge (fun tr => tr.1.referenceNumber)
      (fun br => br.2) iswReconRows iswCollection
    let iswBUnsettled := (leftOnlyRows notIswBRecon).map (·.1)
    if unityIsw.isEmpty ∨ unityIsw.all (fun r => decide (r.localDateTime = none)) then
      .ok ⟨iswBUnsettled, [], [], [], [], [], []⟩
    else
      let ud := unityIsw.head?.bind (·.localDateTime)
      let iswBChargeBack := (rightOnlyRows notIswBRecon).filter
        fun br => dateObsEq (tDateField br.1.transactionNarration) ud
      .ok ⟨iswBUnsettled, iswBChargeBack,
        nerfNibssBCredit collectionUnity ud,
        beingNibssSummary collectionUnity ud,
        cbRows collectionUnity ud,
        tofRows collectionUnity ud,
        dsRows collectionUnity ud⟩

/-! ## Metrics aggregator (`_generate_metrics`) -/

/-- Per-channel metrics sub-mapping. -/
structure ChannelMetrics where
  revenue : ℚ
  settlement : ℚ
  chargeBack : ℚ
  unsettledClaim : ℚ
deriving DecidableEq

/-- The bank channel sub-mapping (`"ISW Bank"`), which carries only
`charge_back` and `unsettled_claim`. -/
structure IswBankMetrics where
  chargeBack : ℚ
  unsettledClaim : ℚ
deriving DecidableEq

/-- The metrics snapshot. -/
structure Metrics where
  totalRevenue : ℚ
  totalSettlement : ℚ
  totalSettlementChargeBack : ℚ
  totalSettlementUnsettledClaims : ℚ
  totalBankIswUnsettledClaims : ℚ
  totalBankIswChargeBack : ℚ
  channelNibss : ChannelMetrics
  channelInterswitch : ChannelMetrics
  channelParallex : ChannelMetrics
  channelIswBank : IswBankMetrics
deriving DecidableEq

/-- All result tables consumed by `_generate_metrics` and returned by the
run. -/
structure RunResults where
  payboxTransDf : PayboxAgg
  interswitchUnityDf : ChannelAgg
  nibssUnityDf : ChannelAgg
  nibssParallexDf : ChannelAgg
  nibssUnitySettlement : SettAgg
  unityIswAgg : UnityIswAgg
  parallexNibssDf : SettAgg
  unsettledClaim : List TxnRow
  chargeBack : List SettRow
  iswUnsettledClaim : List TxnRow
  iswChargeBack : List SettRow
  parallexUnsettledClaim : List TxnRow
  parallexChargeBack : List SettRow
  bank : BankResults
deriving DecidableEq

/-- `df['col'].sum() if not df.empty else 0`. -/
def sumIfNonempty {α : Type} (l : List α) (f : α → ℚ) : ℚ :=
  if l.isEmpty then 0 else (l.map f).sum

/-- `_generate_metrics`, transcribed: the six grand totals and the
per-channel breakdown (the `"ISW Bank"` entry is fed, as in the source,
`charge_back` from `isw_b_unsettled_claim['amount']` and `unsettled_claim`
from `isw_b_charge_back['Credit']`). -/
def generateMetrics (r : RunResults) : Metrics :=
  let totalRevenue := r.nibssUnityDf.gross + r.interswitchUnityDf.gross
    + r.nibssParallexDf.gross
  let totalSettlement := r.nibssUnitySettlement.tranAmountReq
    + r.unityIswAgg.tranAmountReq + r.parallexNibssDf.tranAmountReq
  let totalSettlementChargeBack :=
    sumIfNonempty r.chargeBack (·.tranAmountReq)
    + sumIfNonempty r.iswChargeBack (·.tranAmountReq)
    + sumIfNonempty r.parallexChargeBack (·.tranAmountReq)
  let totalSettlementUnsettledClaims :=
    sumIfNonempty r.unsettledClaim (·.amount)
    + sumIfNonempty r.iswUnsettledClaim (·.amount)
    + sumIfNonempty r.parallexUnsettledClaim (·.amount)
  let totalBankIswUnsettledClaims :=
    sumIfNonempty r.bank.iswBUnsettledClaim (·.amount)
  let totalBankIswChargeBack :=
    sumIfNonempty r.bank.iswBChargeBack (fun br => br.1.credit)
  { totalRevenue := totalRevenue
    totalSettlement := totalSettlement
    totalSettlementChargeBack := totalSettlementChargeBack
    totalSettlementUnsettledClaims := totalSettlementUnsettledClaims
    totalBankIswUnsettledClaims := totalBankIswUnsettledClaims
    totalBankIswChargeBack := totalBankIswChargeBack
    channelNibss :=
      { revenue := r.nibssUnityDf.gross
        settlement := r.nibssUnitySettlement.tranAmountReq
        chargeBack := sumIfNonempty r.chargeBack (·.tranAmountReq)
        unsettledClaim := sumIfNonempty r.unsettledClaim (·.amount) }
    channelInterswitch :=
      { revenue := r.interswitchUnityDf.gross
        settlement := r.unityIswAgg.tranAmountReq
        chargeBack := sumIfNonempty r.iswChargeBack (·.tranAmountReq)
        unsettledClaim := sumIfNonempty r.iswUnsettledClaim (·.amount) }
    channelParallex :=
      { revenue := r.nibssParallexDf.gross
        settlement := r.parallexNibssDf.tranAmountReq
        chargeBack := sumIfNonempty r.parallexChargeBack (·.tranAmountReq)
        unsettledClaim := sumIfNonempty r.parallexUnsettledClaim (·.amount) }
    channelIswBank :=
      { chargeBack := sumIfNonempty r.bank.iswBUnsettledClaim (·.amount)
        unsettledClaim := sumIfNonempty r.bank.iswBChargeBack (fun br => br.1.credit) } }

/-- `run_full_reconciliation`: prepare, process card transactions,
settlements and bank statements, then generate the metrics.  The only
failure point in the model is the `rrn` integer conversion of the bank
stage. -/
def runFullReconciliation (inp : Inputs) (rd : Date) :
    Except String (Metrics × RunResults) :=
  let p := prepareData inp rd
  let nibssSett := nibssUnitySettFiltered p rd
  let unityIsw := unityIswFiltered p rd
  let parallexSett := parallexSettFiltered p rd
  let nibssRecon := settReconDf (nibssUnityTxns p) nibssSett
  let iswReconOuter := settReconDf (iswUnityTxns p) unityIsw
  let parallexRecon := settReconDf (nibssParallexTxns p) parallexSett
  match processBankStatements p.collectionUnity (iswRecon p rd) unityIsw with
  | .error e => .error e
  | .ok bank =>
    let results : RunResults :=
      { payboxTransDf := aggPaybox (payboxTxns p)
        interswitchUnityDf := aggChannel (interswitchUnityRows (iswUnityTxns p))
        nibssUnityDf := aggChannel (nibssUnityRows (nibssUnityTxns p))
        nibssParallexDf := aggChannel (nibssParallexRows (nibssParallexTxns p))
        nibssUnitySettlement := aggSett nibssSett
        unityIswAgg := aggUnityIsw unityIsw
        parallexNibssDf := aggSett parallexSett
        unsettledClaim := leftOnlyRows nibssRecon
        chargeBack := rightOnlyRows nibssRecon
        iswUnsettledClaim := leftOnlyRows iswReconOuter
        iswChargeBack := rightOnlyRows iswReconOuter
        parallexUnsettledClaim := leftOnlyRows parallexRecon
        parallexChargeBack := rightOnlyRows parallexRecon
        bank := bank }
    .ok (generateMetrics results, results)

/-! ## Output datasets (`_prepare_output_datasets`) -/

/-- A cell value of an output DataFrame. -/
inductive Cell where
  | cDate : Date → Cell
  | cNum : ℚ → Cell
  | cStr : String → Cell
  | cNull : Cell
deriving DecidableEq

/-- A generic output DataFrame: a column header and a list of rows. -/
structure Table where
  header : List String
  rows : List (List Cell)
deriving DecidableEq

/-- `df.empty`: true when the frame has no rows or no columns. -/
def tableEmpty (t : Table) : Bool :=
  t.rows.isEmpty || t.header.isEmpty

/-- The per-table step of the output loop:
`if not df.empty and "run_date" not in df.columns:
df.insert(0, "run_date", self.run_date)`. -/
def addRunDate (rd : Date) (t : Table) : Table :=
  if !tableEmpty t ∧ !(t.header.contains "run_date") then
    ⟨"run_date" :: t.header, t.rows.map fun row => Cell.cDate rd :: row⟩
  else t

/-- The output loop over the twelve stored datasets. -/
def prepareOutputDatasets (rd : Date) (tables : List Table) : List Table :=
  tables.map (addRunDate rd)

/-! ## Claim theorems -/

/-- Helper: the value normalizer fixes any string that is strip-invariant
and does not end in `".0"`. -/
theorem normalizeMerchantIdValue_fixed (o : String) (h1 : pyStrip o = o)
    (h2 : pyEndsWith o ".0" = false) : normalizeMerchantIdValue o = o := by
  unfold normalizeMerchantIdValue
  simp [h1, h2]

/-- C5 (counterexample): the normalizer strips only one trailing `".0"`,
so it is not idempotent on `"123.0.0"`: one application yields `"123.0"`,
a second yields `"123"`. -/
theorem c5_counterexample :
    normalizeMerchantIdValue (normalizeMerchantIdValue "123.0.0")
      ≠ normalizeMerchantIdValue "123.0.0" := by decide

/-- C5 (amended): merchant-identifier normalization strips exactly one
trailing `".0"` from the stripped text; it is idempotent on every input
whose normalized output neither still ends in `".0"` nor carries exposed
surrounding whitespace, and `"123.0"` and `"123"` normalize to the same
value. -/
theorem c5_normalizer_idempotent_amended :
    (∀ s : String, pyStrip (normalizeMerchantIdValue s) = normalizeMerchantIdValue s →
      pyEndsWith (normalizeMerchantIdValue s) ".0" = false →
      normalizeMerchantIdValue (normalizeMerchantIdValue s) = normalizeMerchantIdValue s)
    ∧ normalizeMerchantIdValue "123.0" = normalizeMerchantIdValue "123" := by
  constructor
  · intro s h1 h2
    exact normalizeMerchantIdValue_fixed _ h1 h2
  · decide

/-- C5 (witness): the amended idempotence applies to `"123.0"`. -/
theorem c5_witness :
    normalizeMerchantIdValue (normalizeMerchantIdValue "123.0")
      = normalizeMerchantIdValue "123.0" :=
  c5_normalizer_idempotent_amended.1 "123.0" (by decide) (by decide)

/-- C10 (counterexample): on a null cell the scalar normalizer returns
`str(nan) = "nan"` stripped, i.e. `"nan"`, while the series normalizer maps
the null to `""` first; the two disagree. -/
theorem c10_counterexample :
    normalizeMerchantIdValueCell PyVal.vNull
      ≠ normalizeMerchantIdSeriesElem PyVal.vNull := by decide

/-- C10 (amended): on every non-null (string) cell the scalar and series
merchant-identifier normalizers agree. -/
theorem c10_scalar_series_amended (s : String) :
    normalizeMerchantIdValueCell (PyVal.vStr s)
      = normalizeMerchantIdSeriesElem (PyVal.vStr s) := rfl

/-- C6: behaviour of `_parse_mixed_date` on whitespace-free tokens: a token
that is not exactly 8 digits yields null; an 8-digit token starting with
"19" or "20" is parsed as `YYYYMMDD` (`"20240115"` → 2024-01-15); any other
8-digit token is parsed as `DDMMYYYY` first (`"15012024"` → 2024-01-15),
with `MMDDYYYY` attempted only when `DDMMYYYY` fails. -/
theorem c6_mixed_date_branches :
    (∀ s : String, pyStrip s = s → ¬(s.length = 8 ∧ isAllDigits s = true) →
      parseMixedDate s = none)
    ∧ (∀ s : String, pyStrip s = s → s.length = 8 → isAllDigits s = true →
      startsWith1920 s = true → parseMixedDate s = parseYYYYMMDD s)
    ∧ (∀ s : String, pyStrip s = s → s.length = 8 → isAllDigits s = true →
      startsWith1920 s = false →
      (∀ d : Date, parseDDMMYYYY s = some d → parseMixedDate s = some d)
      ∧ (parseDDMMYYYY s = none → parseMixedDate s = parseMMDDYYYY s))
    ∧ parseMixedDate "20240115" = some ⟨2024, 1, 15⟩
    ∧ parseMixedDate "15012024" = some ⟨2024, 1, 15⟩ := by
  refine ⟨?_, ?_, ?_, by decide, by decide⟩
  · intro s hs h
    have hC : s.length ≠ 8 ∨ isAllDigits s = false := by
      rcases not_and_or.mp h with h8 | hd
      · exact Or.inl h8
      · exact Or.inr (by simpa using hd)
    simp only [parseMixedDate, hs]
    rw [if_pos hC]
  · intro s hs h8 hd hstart
    have hC : ¬(s.length ≠ 8 ∨ isAllDigits s = false) := by
      rintro (hx | hx)
      · exact hx h8
      · rw [hd] at hx
        cases hx
    simp only [parseMixedDate, hs]
    rw [if_neg hC, if_pos hstart]
  · intro s hs h8 hd hstart
    have hC : ¬(s.length ≠ 8 ∨ isAllDigits s = false) := by
      rintro (hx | hx)
      · exact hx h8
      · rw [hd] at hx
        cases hx
    constructor
    · intro d hdd
      simp only [parseMixedDate, hs]
      rw [if_neg hC, if_neg (by rw [hstart]; exact Bool.false_ne_true), hdd]
    · intro hdd
      simp only [parseMixedDate, hs]
      rw [if_neg hC, if_neg (by rw [hstart]; exact Bool.false_ne_true), hdd]

/-- C6 (witness): the theorem applied to concrete tokens: the 7-character
token `"1501202"` yields null, and `"20240115"` goes through the
`YYYYMMDD` branch. -/
theorem c6_witness :
    parseMixedDate "1501202" = none
    ∧ parseMixedDate "20240115" = parseYYYYMMDD "20240115" :=
  ⟨c6_mixed_date_branches.1 "1501202" (by decide) (by decide),
    c6_mixed_date_branches.2.1 "20240115" (by decide) (by decide) (by decide) (by decide)⟩

/-- A concrete Interswitch-Unity transaction whose unrounded per-row gross
is 0.004: `liberty_commission = 20.004`, flat costs 17 + 3. -/
def c3Txn : TxnRow :=
  { dateCreated := some ⟨2024, 1, 15⟩
    merchantId := "1234"
    hostRespCode := some 0
    typeOfUser := "AGENT"
    referenceNumber := 1
    amount := 100
    libertyCommission := 20 + 4/1000
    finalLibertyRev := 0
    roProfit := 0
    libertyProfit := 0 }

/-- C3 (counterexample): with two such rows the pipeline's aggregate Gross
is `round2(round2(0.004) + round2(0.004)) = 0`, while the sum of the
unrounded per-row values rounded once at the aggregate level is
`round2(0.008) = 0.01`; the claim's "rounded only at the point of
aggregation, not per row" fails on the code. -/
theorem c3_counterexample :
    (aggChannel (interswitchUnityRows [c3Txn, c3Txn])).gross
      ≠ round2 (([c3Txn, c3Txn].map
          (fun t => t.libertyCommission - 17 - 3)).sum) := by
  have e1 : ((20 : ℚ) + 4/1000 - 17 - 3) = 4/1000 := by norm_num
  have h1 : round2 (4/1000 : ℚ) = 0 := by norm_num [round2, roundHalfEven, floorQ]
  have h2 : round2 (8/1000 : ℚ) = 1/100 := by norm_num [round2, roundHalfEven, floorQ]
  have h0 : round2 (0 : ℚ) = 0 := by norm_num [round2, roundHalfEven, floorQ]
  simp only [aggChannel, interswitchUnityRows, c3Txn, List.map_cons, List.map_nil,
    List.sum_cons, List.sum_nil]
  rw [e1, h1]
  have e2 : ((4 : ℚ)/1000 + (4/1000 + 0)) = 8/1000 := by norm_num
  have e3 : ((0 : ℚ) + (0 + 0)) = 0 := by norm_num
  rw [e2, e3, h0, h2]
  norm_num

/-- C3 (amended): each channel's per-row `Gross` is rounded to 2 decimals
when the column is computed, and the aggregate `Gross` is the sum of those
already-rounded per-row values, rounded once more by the aggregate-level
`.round(2)`. -/
theorem c3_gross_rounding_amended :
    (∀ ts : List TxnRow, (aggChannel (interswitchUnityRows ts)).gross
      = round2 ((ts.map fun t => round2 (t.libertyCommission - 17 - 3)).sum))
    ∧ (∀ ts : List TxnRow, (aggChannel (nibssUnityRows ts)).gross
      = round2 ((ts.map fun t =>
          round2 (t.libertyCommission - t.amount * 0.0022 - t.roProfit)).sum))
    ∧ (∀ ts : List TxnRow, (aggChannel (nibssParallexRows ts)).gross
      = round2 ((ts.map fun t =>
          round2 (t.libertyCommission - t.amount * 0.0022 - t.roProfit)).sum)) := by
  refine ⟨?_, ?_, ?_⟩ <;> intro ts <;>
    simp [aggChannel, interswitchUnityRows, nibssUnityRows, nibssParallexRows,
      List.map_map, Function.comp_def]

/-- A bank-reconciliation `claim_only` transaction with amount 5. -/
def c2Txn : TxnRow :=
  { dateCreated := some ⟨2024, 1, 15⟩
    merchantId := "1234"
    hostRespCode := some 0
    typeOfUser := "AGENT"
    referenceNumber := 10
    amount := 5
    libertyCommission := 0
    finalLibertyRev := 0
    roProfit := 0
    libertyProfit := 0 }

/-- A bank-reconciliation `report_only` statement line with Credit 7. -/
def c2Bank : BankRow :=
  { transactionNarration := "2LBP1 - 2 - 3 - 44 - 15 01 2024 - X"
    valueDate := some ⟨2024, 1, 15⟩
    debit := 0
    credit := 7
    balance := 0 }

/-- A run-results record in which the bank `claim_only` amounts sum to 5
and the bank `report_only` credits sum to 7. -/
def c2Results : RunResults :=
  { payboxTransDf := ⟨0, 0, 0, 0, 0, 0⟩
    interswitchUnityDf := ⟨0, 0, 0, 0, 0, 0⟩
    nibssUnityDf := ⟨0, 0, 0, 0, 0, 0⟩
    nibssParallexDf := ⟨0, 0, 0, 0, 0, 0⟩
    nibssUnitySettlement := ⟨0, 0, 0, 0⟩
    unityIswAgg := ⟨0, 0⟩
    parallexNibssDf := ⟨0, 0, 0, 0⟩
    unsettledClaim := []
    chargeBack := []
    iswUnsettledClaim := []
    iswChargeBack := []
    parallexUnsettledClaim := []
    parallexChargeBack := []
    bank := ⟨[c2Txn], [(c2Bank, 44)], [], [], [], [], []⟩ }

/-- C2 (code divergence, evaluated): `_generate_metrics` feeds the
`"ISW Bank"` channel's `charge_back` from `isw_b_unsettled_claim['amount']`
(the unsettled-claims figure) and its `unsettled_claim` from
`isw_b_charge_back['Credit']` — the two per-channel figures are swapped
relative to the grand totals `total_bank_isw_charge_back` and
`total_bank_isw_unsettled_claims`, so whenever the two sums differ (here 5
versus 7) the per-channel figures disagree with their grand totals. -/
theorem c2_metrics_swap_eval :
    (generateMetrics c2Results).channelIswBank.chargeBack = 5
    ∧ (generateMetrics c2Results).totalBankIswChargeBack = 7
    ∧ (generateMetrics c2Results).channelIswBank.unsettledClaim = 7
    ∧ (generateMetrics c2Results).totalBankIswUnsettledClaims = 5
    ∧ (generateMetrics c2Results).channelIswBank.chargeBack
        ≠ (generateMetrics c2Results).totalBankIswChargeBack
    ∧ (generateMetrics c2Results).channelIswBank.unsettledClaim
        ≠ (generateMetrics c2Results).totalBankIswUnsettledClaims := by
  refine ⟨?_, ?_, ?_, ?_, ?_, ?_⟩ <;>
    norm_num [generateMetrics, c2Results, sumIfNonempty, c2Txn, c2Bank]

/-- Helper: the column conversion raises as soon as any element fails to
parse. -/
theorem astypeIntColumn_error_of_bad (l : List (Option String)) (x : Option String)
    (hx : x ∈ l) (hbad : rrnParses x = false) :
    ∃ e, astypeIntColumn l = Except.error e := by
  induction l with
  | nil => cases hx
  | cons a rest ih =>
    rcases List.mem_cons.mp hx with rfl | hx2
    · cases x with
      | none => exact ⟨_, rfl⟩
      | some s =>
        cases hps : pyParseInt s with
        | none =>
          exact ⟨"invalid literal for int() with base 10: " ++ s,
            by simp [astypeIntColumn, hps]⟩
        | some n =>
          rw [rrnParses, hps] at hbad
          cases hbad
    · cases a with
      | none => exact ⟨_, rfl⟩
      | some s =>
        cases hps : pyParseInt s with
        | none =>
          exact ⟨"invalid literal for int() with base 10: " ++ s,
            by simp [astypeIntColumn, hps]⟩
        | some n =>
          obtain ⟨e, he⟩ := ih hx2
          exact ⟨e, by simp [astypeIntColumn, hps, he]⟩

/-- Helper: when every element parses, the column conversion succeeds. -/
theorem astypeIntColumn_ok_of_all (l : List (Option String))
    (h : ∀ x ∈ l, rrnParses x = true) :
    ∃ vs, astypeIntColumn l = Except.ok vs := by
  induction l with
  | nil => exact ⟨[], rfl⟩
  | cons a rest ih =>
    have ha := h a (List.mem_cons_self a rest)
    cases a with
    | none => cases ha
    | some s =>
      cases hps : pyParseInt s with
      | none =>
        rw [rrnParses, hps] at ha
        cases ha
      | some n =>
        obtain ⟨vs, hvs⟩ := ih fun x hx => h x (List.mem_cons_of_mem _ hx)
        exact ⟨n :: vs, by simp [astypeIntColumn, hps, hvs]⟩

/-- An ISW-collection line whose narration splits into only five fields
(the trailing free-text field is missing) while its `rrn` field `"44"`
parses cleanly. -/
def c8FiveFieldRow : BankRow :=
  { transactionNarration := "2LBP1 - 2 - 3 - 44 - 15 01 2024"
    valueDate := some ⟨2024, 1, 15⟩
    debit := 0
    credit := 0
    balance := 0 }

/-- C8 (counterexample): on a statement whose single ISW-collection line
splits into five fields, every extracted reference-number field parses to
an integer, yet the extraction still raises — the six-name column
assignment of lines 376-378 fails before `astype('int')` is reached.  The
claim's "for rows whose reference-number field does parse, no error is
raised by the extraction" is false of the code. -/
theorem c8_counterexample :
    rrnColumn [c8FiveFieldRow] = [some "44"]
    ∧ rrnParses (some "44") = true
    ∧ (iswExtractRrns [c8FiveFieldRow]).isOk = false := by
  refine ⟨by decide, by decide, by decide⟩

/-- C8 (amended): a row whose extracted reference-number field does not
parse to an integer always makes the extraction raise a hard error (never
a silent skip); and the extraction raises no error when additionally the
repaired narrations split into exactly the six expected fixed fields
(expanded split width 6) and every extracted reference-number field
parses. -/
theorem c8_rrn_hard_error_amended (rows : List BankRow) :
    (∀ x ∈ rrnColumn rows, rrnParses x = false →
      ∃ e, iswExtractRrns rows = Except.error e)
    ∧ (iswSplitWidth rows = 6 → (∀ x ∈ rrnColumn rows, rrnParses x = true) →
      ∃ vs, iswExtractRrns rows = Except.ok vs) := by
  constructor
  · intro x hx hbad
    rw [iswExtractRrns]
    by_cases hw : iswSplitWidth rows ≠ 6
    · rw [if_pos hw]
      exact ⟨_, rfl⟩
    · rw [if_neg hw]
      exact astypeIntColumn_error_of_bad _ x hx hbad
  · intro hw hall
    rw [iswExtractRrns, if_neg (fun h => h hw)]
    exact astypeIntColumn_ok_of_all _ hall

/-- A well-formed ISW-collection row (rrn field `"44"`). -/
def c8GoodRow : BankRow :=
  { transactionNarration := "2LBP1 - 2 - 3 - 44 - 15 01 2024 - COLLECTION"
    valueDate := some ⟨2024, 1, 15⟩
    debit := 0
    credit := 0
    balance := 0 }

/-- A malformed ISW-collection row (rrn field `"ZZ"`). -/
def c8BadRow : BankRow :=
  { transactionNarration := "2LBP1 - 2 - 3 - ZZ - 15 01 2024 - COLLECTION"
    valueDate := some ⟨2024, 1, 15⟩
    debit := 0
    credit := 0
    balance := 0 }

/-- C8 (witness): at a statement with one well-formed and one malformed
six-field ISW row the extraction errors; at a statement with only the
well-formed row it succeeds. -/
theorem c8_witness :
    (∃ e, iswExtractRrns [c8GoodRow, c8BadRow] = Except.error e)
    ∧ (∃ vs, iswExtractRrns [c8GoodRow] = Except.ok vs) :=
  ⟨(c8_rrn_hard_error_amended [c8GoodRow, c8BadRow]).1 (some "ZZ")
      (by decide) (by decide),
    (c8_rrn_hard_error_amended [c8GoodRow]).2 (by decide) (by decide)⟩

/-- Helper: membership in the deduplication accumulator loop. -/
theorem mem_pdDropDupGo {α : Type} [DecidableEq α] (l : List α) :
    ∀ (seen : List α) (x : α), x ∈ pdDropDupGo seen l ↔ x ∈ l ∧ x ∉ seen := by
  induction l with
  | nil => simp [pdDropDupGo]
  | cons a rest ih =>
    intro seen x
    rw [pdDropDupGo]
    by_cases hseen : seen.contains a
    · rw [if_pos hseen, ih]
      constructor
      · rintro ⟨hx, hns⟩
        exact ⟨List.mem_cons_of_mem a hx, hns⟩
      · rintro ⟨hx, hns⟩
        rcases List.mem_cons.mp hx with rfl | hx2
        · exact absurd (by simpa using hseen) hns
        · exact ⟨hx2, hns⟩
    · rw [if_neg hseen]
      constructor
      · intro hx
        rcases List.mem_cons.mp hx with rfl | hx2
        · refine ⟨List.mem_cons_self _ _, ?_⟩
          simpa using hseen
        · obtain ⟨hx3, hns⟩ := (ih _ _).mp hx2
          refine ⟨List.mem_cons_of_mem a hx3, fun hc => hns ?_⟩
          exact List.mem_cons_of_mem a hc
      · rintro ⟨hx, hns⟩
        rcases List.mem_cons.mp hx with rfl | hx2
        · exact List.mem_cons_self _ _
        · by_cases hxa : x = a
          · subst hxa
            exact List.mem_cons_self _ _
          · refine List.mem_cons_of_mem a ((ih _ _).mpr ⟨hx2, ?_⟩)
            intro hc
            rcases List.mem_cons.mp hc with h1 | h2
            · exact hxa h1
            · exact hns h2

/-- Helper: `drop_duplicates` preserves membership. -/
theorem mem_pdDropDuplicates {α : Type} [DecidableEq α] (l : List α) (x : α) :
    x ∈ pdDropDuplicates l ↔ x ∈ l := by
  rw [pdDropDuplicates, mem_pdDropDupGo]
  simp

/-- C9: narration categories are mutually exclusive as claimed: no row
whose narration starts (case-insensitively) with `2LBP` ever lands in the
terminal-owner-fee bucket, because every ISW-collection narration text is
in the excluded-narrations set. -/
theorem c9_tof_excludes_isw (rows : List BankRow) (ud : Option Date) (b : BankRow)
    (hb : b ∈ tofRows rows ud) :
    startsWith2LBPUpper b.transactionNarration = false := by
  by_contra h
  rw [Bool.not_eq_false] at h
  simp only [tofRows, List.mem_filter] at hb
  obtain ⟨⟨⟨hbrows, hends⟩, hnotexcl⟩, hdate⟩ := hb
  have hisw : b ∈ iswCollectionFilter rows := List.mem_filter.mpr ⟨hbrows, h⟩
  have hmem : b.transactionNarration ∈ excludeNarrations rows ud := by
    rw [excludeNarrations, mem_pdDropDuplicates]
    exact List.mem_append.mpr (Or.inl (List.mem_append.mpr
      (Or.inl (List.mem_map.mpr ⟨b, hisw, rfl⟩))))
  rw [Bool.not_eq_true'] at hnotexcl
  have : b.transactionNarration ∉ excludeNarrations rows ud := by
    simpa using hnotexcl
  exact this hmem

/-- A terminal-owner-fee statement line. -/
def c9Row : BankRow :=
  { transactionNarration := "POS FEE TRANSACTION"
    valueDate := some ⟨2024, 1, 15⟩
    debit := 0
    credit := 0
    balance := 0 }

/-- C9 (witness): the theorem applied to a one-line statement whose line
lands in the terminal-owner-fee bucket. -/
theorem c9_witness :
    startsWith2LBPUpper c9Row.transactionNarration = false :=
  c9_tof_excludes_isw [c9Row] (some ⟨2024, 1, 15⟩) c9Row (by decide)

/-- C4 (counterexample): an empty result table — e.g. the empty frames the
degenerate bank branch stores — passes through the output loop unchanged
and carries no `run_date` column at all, contradicting "including empty
ones". -/
theorem c4_counterexample :
    prepareOutputDatasets ⟨2024, 1, 15⟩ [⟨["amount"], []⟩] = [⟨["amount"], []⟩]
    ∧ (Table.mk ["amount"] []).header.contains "run_date" = false := by
  constructor
  · rfl
  · decide

/-- C4 (amended): every *non-empty* output table that does not already
have a `run_date` column receives one as its first column, holding the run
date in every row; empty tables are returned unchanged. -/
theorem c4_run_date_amended (t : Table) (rd : Date) (hrows : t.rows ≠ [])
    (hcols : t.header ≠ []) (hnew : t.header.contains "run_date" = false) :
    (addRunDate rd t).header.head? = some "run_date"
    ∧ ∀ row ∈ (addRunDate rd t).rows, row.head? = some (Cell.cDate rd) := by
  have hc : (!tableEmpty t) = true ∧ (!(t.header.contains "run_date")) = true := by
    constructor
    · simp [tableEmpty, hrows, hcols]
    · simpa using hnew
  rw [addRunDate, if_pos hc]
  refine ⟨rfl, ?_⟩
  intro row hrow
  obtain ⟨r0, hr0, rfl⟩ := List.mem_map.mp hrow
  rfl

/-- A one-row channel aggregate output table. -/
def c4Table : Table := ⟨["amount"], [[Cell.cNum 5]]⟩

/-- C4 (witness): the amended statement applied to a concrete non-empty
table. -/
theorem c4_witness :
    (addRunDate ⟨2024, 1, 15⟩ c4Table).header.head? = some "run_date" :=
  (c4_run_date_amended c4Table ⟨2024, 1, 15⟩ (by decide) (by decide) (by decide)).1

/-- Helper: merchant-id normalization commutes with the run-date filter on
a settlement table (it does not touch the date column). -/
theorem filter_date_map_norm (l : List SettRow) (rd : Date) :
    (l.map normalizeSettRow).filter (fun r => dateObsEq r.localDateTime (some rd))
      = (l.filter (fun r => dateObsEq r.localDateTime (some rd))).map normalizeSettRow := by
  induction l with
  | nil => rfl
  | cons a rest ih =>
    simp only [List.map_cons, List.filter_cons]
    by_cases h : dateObsEq a.localDateTime (some rd) = true
    · have h2 : dateObsEq (normalizeSettRow a).localDateTime (some rd) = true := h
      rw [if_pos h2, if_pos h, List.map_cons, ih]
    · have h2 : ¬dateObsEq (normalizeSettRow a).localDateTime (some rd) = true := h
      rw [if_neg h2, if_neg h, ih]

/-- Helper: an outer merge with an empty left table has no `left_only`
rows. -/
theorem leftOnlyRows_outerMerge_nil_left {α β K : Type} [DecidableEq K]
    (ka : α → K) (kb : β → K) (rs : List β) :
    leftOnlyRows (outerMerge ka kb ([] : List α) rs) = [] := by
  have hf : (outerMerge ka kb ([] : List α) rs).filter
      (fun m => decide (m.ind = MergeInd.leftOnly)) = [] := by
    rw [List.filter_eq_nil_iff]
    intro m hm
    rw [mem_outerMerge] at hm
    rcases hm with ⟨t, ht, _⟩ | ⟨t, ht, _⟩ | ⟨r, hr, _, rfl⟩
    · cases ht
    · cases ht
    · simp
  rw [leftOnlyRows, hf]
  rfl

/-- Helper: an inner join against an empty right table is empty. -/
theorem innerJoin_nil_right {α β K : Type} [DecidableEq K]
    (ka : α → K) (kb : β → K) (ts : List α) :
    innerJoin ka kb ts ([] : List β) = [] := by
  simp [innerJoin]

/-- Helper: when the filtered Interswitch settlement report is empty, the
bank stage returns empty tables for everything (provided the `rrn`
conversion succeeds). -/
theorem processBankStatements_empty_sett (coll : List BankRow)
    (txns : List TxnRow) (vs : List Int)
    (hrrn : iswExtractRrns coll = Except.ok vs) :
    processBankStatements coll
      (innerJoin TxnRow.referenceNumber SettRow.retrievalReferenceNr txns [])
      [] = Except.ok ⟨[], [], [], [], [], [], []⟩ := by
  rw [processBankStatements, hrrn, innerJoin_nil_right]
  simp [leftOnlyRows_outerMerge_nil_left]

/-- C7 (amended): for every run whose Interswitch settlement report is
empty after date filtering, *provided* the ISW-collection extraction from
the Unity bank statement succeeds (the repaired narrations split into the
six expected fields and every reference number converts), the run
completes: the `unity_isw_agg` settlement aggregate is all-zero, every
bank-reconciliation output table is empty, and the grand-total metrics
compute without error. -/
theorem c7_degenerate_amended (inp : Inputs) (rd : Date) (vs : List Int)
    (hsett : inp.unitySettlement.filter
      (fun r => dateObsEq r.localDateTime (some rd)) = [])
    (hrrn : iswExtractRrns inp.collectionAccountUnity = Except.ok vs) :
    ∃ m results, runFullReconciliation inp rd = Except.ok (m, results)
      ∧ results.unityIswAgg.tranAmountReq = 0
      ∧ results.unityIswAgg.merchantIdCount = 0
      ∧ results.bank.iswBUnsettledClaim = []
      ∧ results.bank.iswBChargeBack = []
      ∧ results.bank.nerfNibssBCredit = []
      ∧ results.bank.beingNibssSummary = []
      ∧ results.bank.cb = []
      ∧ results.bank.tofDf = []
      ∧ results.bank.ds = [] := by
  have hIsw : unityIswFiltered (prepareData inp rd) rd = [] := by
    rw [unityIswFiltered]
    show pdDropDuplicates ((inp.unitySettlement.map normalizeSettRow).filter
      (fun r => dateObsEq r.localDateTime (some rd))) = []
    rw [filter_date_map_norm, hsett]
    rfl
  have hRecon : iswRecon (prepareData inp rd) rd
      = innerJoin TxnRow.referenceNumber SettRow.retrievalReferenceNr
        (iswUnityTxns (prepareData inp rd)) [] := by
    rw [iswRecon, hIsw]
  have hcoll : (prepareData inp rd).collectionUnity = inp.collectionAccountUnity := rfl
  have hBank : processBankStatements (prepareData inp rd).collectionUnity
      (iswRecon (prepareData inp rd) rd) (unityIswFiltered (prepareData inp rd) rd)
      = Except.ok ⟨[], [], [], [], [], [], []⟩ := by
    rw [hcoll, hRecon, hIsw]
    exact processBankStatements_empty_sett _ _ vs hrrn
  have hrun : ∃ m results, runFullReconciliation inp rd = Except.ok (m, results)
      ∧ results.unityIswAgg
          = aggUnityIsw (unityIswFiltered (prepareData inp rd) rd)
      ∧ results.bank = ⟨[], [], [], [], [], [], []⟩ := by
    rw [runFullReconciliation]
    simp only [hBank]
    exact ⟨_, _, rfl, rfl, rfl⟩
  obtain ⟨m, results, h1, h2, h3⟩ := hrun
  refine ⟨m, results, h1, ?_, ?_, ?_, ?_, ?_, ?_, ?_, ?_, ?_⟩
  · rw [h2, hIsw]
    rfl
  · rw [h2, hIsw]
    rfl
  all_goals rw [h3]

/-- An ISW-collection line whose reference-number field (`"ZZ"`) does not
parse as an integer. -/
def c7BadRow : BankRow :=
  { transactionNarration := "2LBP1 - 2 - 3 - ZZ - 15 01 2024 - COLLECTION"
    valueDate := some ⟨2024, 1, 15⟩
    debit := 0
    credit := 0
    balance := 0 }

/-- A run whose Interswitch settlement report is empty but whose Unity
bank statement holds one malformed ISW-collection line. -/
def c7BadInputs : Inputs :=
  { cardDf := []
    nibssUnitySettlementDf := []
    unitySettlement := []
    parallexNibss := []
    collectionAccountUnity := [c7BadRow]
    collectionAccountParallex := []
    merchantIdInterswitchUnity := "1"
    merchantIdNibssUnity := "2"
    merchantIdNibssParallex := "3" }

/-- C7 (counterexample): the `rrn` conversion of the bank stage runs
*before* the empty-settlement guard, so a run with an empty Interswitch
settlement report can still abort on a malformed ISW-collection narration
— the metrics are then never computed, contradicting the claim's "the
grand-total metrics still compute without raising an error" for every such
run. -/
theorem c7_counterexample :
    c7BadInputs.unitySettlement.filter
        (fun r => dateObsEq r.localDateTime (some ⟨2024, 1, 15⟩)) = []
    ∧ (runFullReconciliation c7BadInputs ⟨2024, 1, 15⟩).isOk = false := by
  constructor
  · rfl
  · decide

/-- A well-formed six-field ISW-collection line. -/
def c7GoodRow : BankRow :=
  { transactionNarration := "2LBP1 - 2 - 3 - 44 - 15 01 2024 - COLLECTION"
    valueDate := some ⟨2024, 1, 15⟩
    debit := 0
    credit := 0
    balance := 0 }

/-- A run with an empty Interswitch settlement report and one well-formed
ISW-collection line on the Unity bank statement. -/
def c7GoodInputs : Inputs :=
  { cardDf := []
    nibssUnitySettlementDf := []
    unitySettlement := []
    parallexNibss := []
    collectionAccountUnity := [c7GoodRow]
    collectionAccountParallex := []
    merchantIdInterswitchUnity := "1"
    merchantIdNibssUnity := "2"
    merchantIdNibssParallex := "3" }

/-- C7 (witness): the amended degenerate case at a concrete run: the
pipeline completes without error. -/
theorem c7_witness :
    (runFullReconciliation c7GoodInputs ⟨2024, 1, 15⟩).isOk = true := by
  obtain ⟨m, results, hok, _⟩ :=
    c7_degenerate_amended c7GoodInputs ⟨2024, 1, 15⟩ [44] rfl rfl
  rw [hok]
  rfl
